import Mathlib

/-!
Verification of the pgDog plugin routing-decision protocol.

The data-model definitions below are a shallow embedding of the C
declarations in `src/pgdog-plugin/include/types.h`: C arrays given by a
count field plus a pointer are embedded as Lean lists (the count is the
list length), C byte buffers (`char *` with an explicit length field)
are embedded as `List Nat` together with the declared length where the
declaration keeps both, and C enums become Lean inductives with their
declared integer values recorded alongside.

The header contains declarations only; the behaviour of the host
(single-plugin invocation, the chain dispatcher, shard resolution and
fan-out, merge, and intercept synthesis) is modelled from the
specification, and every such definition is marked
`Modelled from the spec:` in its doc comment.
-/

namespace Pgdog

/-- Query parameter value (`struct Parameter`, types.h lines 5-9):
declared length `len`, the raw byte buffer `data`, and the `format`
tag (text/binary). -/
structure Parameter where
  len : Int
  data : List Nat
  format : Int
deriving DecidableEq

/-- Query received by pgDog (`struct Query`, types.h lines 17-22):
declared text length `len`, the query text bytes, and the ordered
parameters (`num_parameters` is the length of `parameters`). -/
structure Query where
  len : Int
  query : List Nat
  parameters : List Parameter
deriving DecidableEq

/-- Number of parameters of a query (`num_parameters` field). -/
def Query.num_parameters (q : Query) : Nat := q.parameters.length

/-- Read/write affinity of a query (`enum Affinity`, types.h lines 29-35). -/
inductive Affinity where
  | READ
  | WRITE
  | TRANSACTION_START
  | TRANSACTION_END
  | UNKNOWN
deriving DecidableEq

/-- Declared integer values of `enum Affinity`. -/
def Affinity.toInt : Affinity → Int
  | .READ => 1
  | .WRITE => 2
  | .TRANSACTION_START => 3
  | .TRANSACTION_END => 4
  | .UNKNOWN => -1

/-- Sentinel shard value ANY (`enum Shard`, types.h line 44). -/
def ANY : Int := -1

/-- Sentinel shard value ALL (`enum Shard`, types.h line 45). -/
def ALL : Int := -2

/-- Route the query should take (`struct Route`, types.h lines 52-55):
an affinity and a shard value (a non-negative concrete shard id, or one
of the sentinels ANY/ALL). -/
structure Route where
  affinity : Affinity
  shard : Int
deriving DecidableEq

/-- The routing decision a plugin makes (`enum RoutingDecision`,
types.h lines 71-78). -/
inductive RoutingDecision where
  | FORWARD
  | REWRITE
  | ERROR
  | INTERCEPT
  | NO_DECISION
deriving DecidableEq

/-- Declared integer values of `enum RoutingDecision`. -/
def RoutingDecision.toInt : RoutingDecision → Int
  | .FORWARD => 1
  | .REWRITE => 2
  | .ERROR => 3
  | .INTERCEPT => 4
  | .NO_DECISION => 5

/-- Error returned by the router plugin (`struct Error`, types.h
lines 84-89): four text fields. -/
structure Error where
  severity : String
  code : String
  message : String
  detail : String
deriving DecidableEq

/-- One column value of a synthesized row (`struct RowColumn`, types.h
lines 91-94): declared byte length and the byte buffer; a negative
length is the SQL NULL sentinel. -/
structure RowColumn where
  length : Int
  data : List Nat
deriving DecidableEq

/-- One synthesized row (`struct Row`, types.h lines 96-99);
`num_columns` is the length of `columns`. -/
structure Row where
  columns : List RowColumn
deriving DecidableEq

/-- Number of columns of a row (`num_columns` field). -/
def Row.num_columns (r : Row) : Nat := r.columns.length

/-- Column metadata (`struct RowDescriptionColumn`, types.h
lines 101-105): declared name length, name bytes, type oid. -/
structure RowDescriptionColumn where
  len : Int
  name : List Nat
  oid : Int
deriving DecidableEq

/-- Result-set description (`struct RowDescription`, types.h
lines 107-110); `num_columns` is the length of `columns`. -/
structure RowDescription where
  columns : List RowDescriptionColumn
deriving DecidableEq

/-- Number of columns of a row description (`num_columns` field). -/
def RowDescription.num_columns (d : RowDescription) : Nat := d.columns.length

/-- Plugin-synthesized result set (`struct Intercept`, types.h
lines 112-116): a row description and rows (`num_rows` is the length
of `rows`). -/
structure Intercept where
  row_description : RowDescription
  rows : List Row
deriving DecidableEq

/-- The populated member of the `union RoutingOutput` (types.h
lines 126-130) as seen together with the decision tag.  The C union
has members `route` (FORWARD), `error` (ERROR) and `intercept`
(INTERCEPT); `nothing` stands for no populated member (NO_DECISION).
The `rewrite` member is Modelled from the spec: the spec states that a
REWRITE decision carries new query text (same ownership rules as Query
text), which the declared C union does not model separately. -/
inductive RoutingOutput where
  | route (r : Route)
  | error (e : Error)
  | intercept (i : Intercept)
  | rewrite (len : Int) (text : List Nat)
  | nothing
deriving DecidableEq

/-- Plugin output (`struct Output`, types.h lines 137-140): decision
tag plus the payload union. -/
structure Output where
  decision : RoutingDecision
  output : RoutingOutput
deriving DecidableEq

/-- Database role (`enum Role`, types.h lines 145-148). -/
inductive Role where
  | PRIMARY
  | REPLICA
deriving DecidableEq

/-- One backend entry (`struct DatabaseConfig`, types.h lines 153-158):
shard index, role, host, port. -/
structure DatabaseConfig where
  shard : Int
  role : Role
  host : String
  port : Int
deriving DecidableEq

/-- Cluster configuration (`struct Config`, types.h lines 164-169):
the database entries (`num_databases` is the length of `databases`)
and the logical database name.  There is no shard-count field. -/
structure Config where
  databases : List DatabaseConfig
  name : String
deriving DecidableEq

/-- Number of database entries (`num_databases` field). -/
def Config.num_databases (c : Config) : Nat := c.databases.length

/-- Modelled from the spec: the shard count of a cluster is not a
field of `Config`; it is derived from the distinct
`DatabaseConfig.shard` values of the configured databases (several
entries, e.g. a primary and its replicas, may share one shard index). -/
def Config.shardCount (c : Config) : Nat :=
  ((c.databases.map DatabaseConfig.shard).dedup).length

/-- Routing input union (`union RoutingInput`, types.h lines 174-176). -/
inductive RoutingInput where
  | query (q : Query)
deriving DecidableEq

/-- Input type tag (`enum InputType`, types.h lines 181-183). -/
inductive InputType where
  | ROUTING_INPUT
deriving DecidableEq

/-- Plugin input (`struct Input`, types.h lines 188-192). -/
structure Input where
  config : Config
  input_type : InputType
  input : RoutingInput
deriving DecidableEq

/-- Modelled from the spec: the fault taxonomy of §7.  `pluginFault`
(plugin crashed, hung, or returned a malformed decision/payload
pairing), `routingFault` (resolved shard id out of range),
`mergeFault` (ALL-shard result shapes incompatible) and `shapeFault`
(Intercept row/column count mismatch). -/
inductive Fault where
  | pluginFault
  | routingFault
  | mergeFault
  | shapeFault
deriving DecidableEq

/-- Modelled from the spec: the raw outcome of calling one plugin —
either an `Output` value, or a crash, or a timeout (the latter two are
`PluginFault` conditions of §4.2). -/
inductive PluginResult where
  | ok (o : Output)
  | crash
  | timeout
deriving DecidableEq

/-- Modelled from the spec: the §3 invariant on `Output` — the
decision tag and the populated union member must agree:
FORWARD→route, ERROR→error, INTERCEPT→intercept, REWRITE→new query
text, NO_DECISION→no payload. -/
def agrees : RoutingDecision → RoutingOutput → Bool
  | .FORWARD, .route _ => true
  | .ERROR, .error _ => true
  | .INTERCEPT, .intercept _ => true
  | .REWRITE, .rewrite _ _ => true
  | .NO_DECISION, .nothing => true
  | _, _ => false

/-- Modelled from the spec: single-plugin invocation (§4.2).  A crash,
a timeout, or a decision/payload pairing violating the §3 invariant is
a `PluginFault`; otherwise the plugin's `Output` is returned. -/
def invoke : PluginResult → Except Fault Output
  | .ok o => if agrees o.decision o.output then Except.ok o else Except.error Fault.pluginFault
  | .crash => Except.error Fault.pluginFault
  | .timeout => Except.error Fault.pluginFault

/-- Modelled from the spec: terminal state of the chain dispatcher
(§4.3) — either a plugin's frozen `Output` (Terminal) or Exhausted
(every plugin declined). -/
inductive ChainResult where
  | terminal (o : Output)
  | exhausted
deriving DecidableEq

/-- Modelled from the spec: a plugin result is decisive when its
invocation yields an `Output` whose decision is not NO_DECISION (so it
freezes the chain); a `PluginFault` outcome is treated as NO_DECISION
under the default degrade policy of §4.2, hence is not decisive. -/
def decisive (p : PluginResult) : Option Output :=
  match invoke p with
  | Except.error _ => Option.none
  | Except.ok o =>
    if o.decision = RoutingDecision.NO_DECISION then Option.none else Option.some o

/-- Modelled from the spec: the chain dispatcher (§4.3) under the
default degrade policy of §4.2 (a `PluginFault` is treated as
NO_DECISION and the chain continues).  Returns the terminal result
together with the number of plugins invoked; plugins are invoked
sequentially from the front of the chain, so the invoked plugins are
exactly the first `n` of the chain, in configured order, once each. -/
def dispatchTrace : List PluginResult → ChainResult × Nat
  | [] => (ChainResult.exhausted, 0)
  | p :: rest =>
    match decisive p with
    | Option.some o => (ChainResult.terminal o, 1)
    | Option.none => ((dispatchTrace rest).1, (dispatchTrace rest).2 + 1)

/-- The canonical NO_DECISION output. -/
def noDecisionOutput : Output := ⟨RoutingDecision.NO_DECISION, RoutingOutput.nothing⟩

theorem dispatchTrace_cons_not_decisive {p : PluginResult} (rest : List PluginResult)
    (h : decisive p = Option.none) :
    dispatchTrace (p :: rest) = ((dispatchTrace rest).1, (dispatchTrace rest).2 + 1) := by
  simp [dispatchTrace, h]

theorem dispatchTrace_cons_decisive {p : PluginResult} {o : Output} (rest : List PluginResult)
    (h : decisive p = Option.some o) :
    dispatchTrace (p :: rest) = (ChainResult.terminal o, 1) := by
  simp [dispatchTrace, h]

/-- If every plugin of the chain is non-decisive, the dispatcher ends
Exhausted having invoked every plugin exactly once. -/
theorem dispatchTrace_all_not_decisive (chain : List PluginResult)
    (h : ∀ p ∈ chain, decisive p = Option.none) :
    dispatchTrace chain = (ChainResult.exhausted, chain.length) := by
  induction chain with
  | nil => rfl
  | cons p rest ih =>
    rw [dispatchTrace_cons_not_decisive rest (h p (List.mem_cons_self p rest))]
    rw [ih (fun q hq => h q (List.mem_cons_of_mem p hq))]
    simp [List.length_cons]

/-- If the plugins before `p` are non-decisive and `p` is decisive
with output `o`, the dispatcher's result is Terminal `o` and exactly
the plugins up to and including `p` were invoked, once each. -/
theorem dispatchTrace_first_decisive (pre post : List PluginResult)
    (p : PluginResult) (o : Output)
    (hpre : ∀ q ∈ pre, decisive q = Option.none)
    (hp : decisive p = Option.some o) :
    dispatchTrace (pre ++ p :: post) = (ChainResult.terminal o, pre.length + 1) := by
  induction pre with
  | nil =>
    simpa using dispatchTrace_cons_decisive post hp
  | cons q rest ih =>
    rw [List.cons_append,
      dispatchTrace_cons_not_decisive (rest ++ p :: post) (hpre q (List.mem_cons_self q rest)),
      ih (fun r hr => hpre r (List.mem_cons_of_mem q hr))]
    simp [List.length_cons]

/-- Modelled from the spec: the physical dispatch plan a resolved
shard value is turned into (§4.4) — a single concrete shard, or a
fan-out to every configured shard. -/
inductive ShardPlan where
  | single (i : Nat)
  | fanAll
deriving DecidableEq

/-- Modelled from the spec: shard resolution (§4.4).  `pick` is the
host-defined ANY-selection policy (external to the core; the core only
guarantees ANY resolves to exactly one concrete id).  ALL becomes a
fan-out, a concrete id must satisfy `0 ≤ id < shards`, and an
out-of-range id is a `RoutingFault`, never clamped. -/
def resolveShard (pick shards : Nat) (shard : Int) : Except Fault ShardPlan :=
  if shard = ALL then Except.ok ShardPlan.fanAll
  else if shard = ANY then Except.ok (ShardPlan.single pick)
  else if 0 ≤ shard ∧ shard.toNat < shards then Except.ok (ShardPlan.single shard.toNat)
  else Except.error Fault.routingFault

/-- One shard's result set: its row description and its rows. -/
abbrev ShardResult := RowDescription × List Row

/-- Modelled from the spec: the result the merge step has received for
shard `i`, given the per-shard results in the order the shard
executions completed (`arrivals`). -/
def lookupShard (arrivals : List (Nat × ShardResult)) (i : Nat) : Option ShardResult :=
  (arrivals.find? (fun a => a.1 == i)).map (fun a => a.2)

/-- Modelled from the spec: the merge step blocks until every listed
shard's result has arrived; collects them in ascending shard-index
order, independent of the completion order. -/
def collectShards (arrivals : List (Nat × ShardResult)) : List Nat → Option (List ShardResult)
  | [] => Option.some []
  | i :: is =>
    match lookupShard arrivals i, collectShards arrivals is with
    | Option.some r, Option.some rs => Option.some (r :: rs)
    | _, _ => Option.none

/-- Modelled from the spec: the ALL-shard merge (§4.4).  Row sets are
concatenated in shard-index order when every shard's `RowDescription`
is identical; differing shapes are a `MergeFault`. -/
def mergeAll (shards : Nat) (arrivals : List (Nat × ShardResult)) :
    Except Fault ShardResult :=
  match collectShards arrivals (List.range shards) with
  | Option.none => Except.error Fault.mergeFault
  | Option.some [] => Except.error Fault.mergeFault
  | Option.some (first :: rest) =>
    if ∀ p ∈ rest, p.1 = first.1 then
      Except.ok (first.1, ((first :: rest).map Prod.snd).flatten)
    else Except.error Fault.mergeFault

/-- Modelled from the spec: a synthesized column value is
self-consistent when its declared length is the negative SQL NULL
sentinel, or the declared length equals the byte-sequence length
(§4.5). -/
def RowColumn.consistent (c : RowColumn) : Prop :=
  c.length < 0 ∨ c.length = (c.data.length : Int)

instance (c : RowColumn) : Decidable c.consistent := by
  unfold RowColumn.consistent
  infer_instance

/-- Modelled from the spec: Intercept result synthesis (§4.5).
Validates that every row's column count matches the row description's
column count and every column value is self-consistent; a violation is
a `ShapeFault`, otherwise the synthesized result set is produced. -/
def synthesize (ic : Intercept) : Except Fault ShardResult :=
  if (∀ r ∈ ic.rows, r.num_columns = ic.row_description.num_columns) ∧
     (∀ r ∈ ic.rows, ∀ c ∈ r.columns, c.consistent) then
    Except.ok (ic.row_description, ic.rows)
  else Except.error Fault.shapeFault

/-- Modelled from the spec: what the client sees from the proxy for
one query — a result set, a plugin-issued SQL error, rewritten query
text handed to the REWRITE policy (an external toggle), or the host's
default routing policy (chain Exhausted). -/
inductive ClientView where
  | resultSet (rd : RowDescription) (rows : List Row)
  | sqlError (e : Error)
  | rewritten (len : Int) (text : List Nat)
  | hostDefault
deriving DecidableEq

/-- Modelled from the spec: execution of the chain's terminal
`Output` (§4.4, §4.5).  `backend` gives each shard's true result set,
`arrivals` the completion order of an ALL fan-out.  Returns the list
of shard indices dispatched to a backend together with the
client-visible outcome.  A mismatched decision/payload pairing cannot
reach this point (the dispatcher only freezes validated outputs); the
catch-all branch is a `PluginFault`. -/
def execOutput (pick shards : Nat) (backend : Nat → ShardResult)
    (arrivals : List (Nat × ShardResult)) (o : Output) :
    List Nat × Except Fault ClientView :=
  match o.decision, o.output with
  | RoutingDecision.FORWARD, RoutingOutput.route r =>
    match resolveShard pick shards r.shard with
    | Except.error f => ([], Except.error f)
    | Except.ok (ShardPlan.single i) =>
      ([i], Except.ok (ClientView.resultSet (backend i).1 (backend i).2))
    | Except.ok ShardPlan.fanAll =>
      (List.range shards,
        match mergeAll shards arrivals with
        | Except.error f => Except.error f
        | Except.ok res => Except.ok (ClientView.resultSet res.1 res.2))
  | RoutingDecision.ERROR, RoutingOutput.error e => ([], Except.ok (ClientView.sqlError e))
  | RoutingDecision.INTERCEPT, RoutingOutput.intercept ic =>
    ([],
      match synthesize ic with
      | Except.error f => Except.error f
      | Except.ok res => Except.ok (ClientView.resultSet res.1 res.2))
  | RoutingDecision.REWRITE, RoutingOutput.rewrite l t =>
    ([], Except.ok (ClientView.rewritten l t))
  | _, _ => ([], Except.error Fault.pluginFault)

/-- Modelled from the spec: the full per-query pipeline — run the
chain dispatcher, then execute its terminal output; an Exhausted chain
is exposed distinctly so the host can apply its own default policy. -/
def execChain (pick shards : Nat) (backend : Nat → ShardResult)
    (arrivals : List (Nat × ShardResult)) (chain : List PluginResult) :
    List Nat × Except Fault ClientView :=
  match (dispatchTrace chain).1 with
  | ChainResult.exhausted => ([], Except.ok ClientView.hostDefault)
  | ChainResult.terminal o => execOutput pick shards backend arrivals o

/-- Modelled from the spec: the dispatcher over plugins as functions
of the immutable per-query `Input` (§4.3, §5).  Besides the chain
result it returns the inputs observed by the plugins actually
invoked, in invocation order. -/
def dispatchObs (inp : Input) : List (Input → PluginResult) → ChainResult × List Input
  | [] => (ChainResult.exhausted, [])
  | f :: rest =>
    match decisive (f inp) with
    | Option.some o => (ChainResult.terminal o, [inp])
    | Option.none =>
      ((dispatchObs inp rest).1, inp :: (dispatchObs inp rest).2)

/-- Modelled from the spec: the 4-byte little-endian encoding of an
explicit length (or other 32-bit field) on the serialized form of a
query; every variable-length field carries such an explicit length
(§4.1). -/
def encNat32 (n : Nat) : List Nat :=
  [n % 256, n / 256 % 256, n / 65536 % 256, n / 16777216 % 256]

/-- Modelled from the spec: read back a 4-byte little-endian field,
returning the value and the remaining bytes. -/
def decNat32 : List Nat → Option (Nat × List Nat)
  | b0 :: b1 :: b2 :: b3 :: rest =>
    Option.some (b0 + 256 * b1 + 65536 * b2 + 16777216 * b3, rest)
  | _ => Option.none

/-- Modelled from the spec: serialized form of a `Parameter` —
explicit length, the raw data bytes (which may contain embedded zero
bytes under binary format), and the format tag.  No null-termination
is relied upon. -/
def encodeParam (p : Parameter) : List Nat :=
  encNat32 p.len.toNat ++ p.data ++ encNat32 p.format.toNat

/-- Modelled from the spec: parse one serialized `Parameter`; exactly
the declared number of data bytes is consumed, regardless of their
values. -/
def decodeParam (bytes : List Nat) : Option (Parameter × List Nat) :=
  match decNat32 bytes with
  | Option.none => Option.none
  | Option.some (len, rest) =>
    if len ≤ rest.length then
      match decNat32 (rest.drop len) with
      | Option.none => Option.none
      | Option.some (fmt, rest2) =>
        Option.some (⟨(len : Int), rest.take len, (fmt : Int)⟩, rest2)
    else Option.none

/-- Modelled from the spec: parse `n` serialized parameters in order. -/
def decodeParams : Nat → List Nat → Option (List Parameter × List Nat)
  | 0, bytes => Option.some ([], bytes)
  | n + 1, bytes =>
    match decodeParam bytes with
    | Option.none => Option.none
    | Option.some (p, rest) =>
      match decodeParams n rest with
      | Option.none => Option.none
      | Option.some (ps, rest2) => Option.some (p :: ps, rest2)

/-- Modelled from the spec: serialized form of a `Query` — explicit
text length, the text bytes, the parameter count, then each parameter
in order. -/
def encodeQuery (q : Query) : List Nat :=
  encNat32 q.len.toNat ++ q.query ++ encNat32 q.parameters.length ++
    (q.parameters.map encodeParam).flatten

/-- Modelled from the spec: parse one serialized `Query`, returning it
with the remaining bytes. -/
def decodeQuery (bytes : List Nat) : Option (Query × List Nat) :=
  match decNat32 bytes with
  | Option.none => Option.none
  | Option.some (len, rest) =>
    if len ≤ rest.length then
      match decNat32 (rest.drop len) with
      | Option.none => Option.none
      | Option.some (np, rest2) =>
        match decodeParams np rest2 with
        | Option.none => Option.none
        | Option.some (ps, rest3) =>
          Option.some (⟨(len : Int), rest.take len, ps⟩, rest3)
    else Option.none

/-- A `Parameter` as handed across the boundary: the declared length
is non-negative, fits a C int, and equals the byte count of the data. -/
def Parameter.wellFormed (p : Parameter) : Prop :=
  0 ≤ p.len ∧ p.len < 2147483648 ∧ p.len = (p.data.length : Int) ∧
    0 ≤ p.format ∧ p.format < 2147483648

instance (p : Parameter) : Decidable p.wellFormed := by
  unfold Parameter.wellFormed
  infer_instance

/-- A `Query` as handed across the boundary: the declared text length
is non-negative, fits a C int, and equals the byte count of the text;
the parameter count fits a C int; every parameter is well-formed. -/
def Query.wellFormed (q : Query) : Prop :=
  0 ≤ q.len ∧ q.len < 2147483648 ∧ q.len = (q.query.length : Int) ∧
    q.parameters.length < 2147483648 ∧ ∀ p ∈ q.parameters, p.wellFormed

instance (q : Query) : Decidable q.wellFormed := by
  unfold Query.wellFormed
  infer_instance

instance {ε α : Type} [DecidableEq ε] [DecidableEq α] : DecidableEq (Except ε α) := fun a b =>
  match a, b with
  | Except.error e, Except.error f =>
    if h : e = f then isTrue (by rw [h]) else isFalse (by intro hc; cases hc; exact h rfl)
  | Except.error _, Except.ok _ => isFalse (by intro hc; cases hc)
  | Except.ok _, Except.error _ => isFalse (by intro hc; cases hc)
  | Except.ok x, Except.ok y =>
    if h : x = y then isTrue (by rw [h]) else isFalse (by intro hc; cases hc; exact h rfl)

theorem invoke_ok_agrees {p : PluginResult} {o : Output} (h : invoke p = Except.ok o) :
    agrees o.decision o.output = true := by
  cases p with
  | ok o' =>
    by_cases ha : agrees o'.decision o'.output = true
    · have ho : o' = o := by simpa [invoke, ha] using h
      rw [← ho]
      exact ha
    · simp [invoke, ha] at h
  | crash => simp [invoke] at h
  | timeout => simp [invoke] at h

theorem decisive_some {p : PluginResult} {o : Output} (h : decisive p = Option.some o) :
    invoke p = Except.ok o ∧ o.decision ≠ RoutingDecision.NO_DECISION := by
  cases hi : invoke p with
  | error f => simp [decisive, hi] at h
  | ok o' =>
    by_cases hd : o'.decision = RoutingDecision.NO_DECISION
    · simp [decisive, hi, hd] at h
    · have ho : o' = o := by simpa [decisive, hi, hd] using h
      rw [← ho]
      exact ⟨rfl, hd⟩

theorem decisive_of_invoke_ok {p : PluginResult} {o : Output}
    (h : invoke p = Except.ok o) (hd : o.decision ≠ RoutingDecision.NO_DECISION) :
    decisive p = Option.some o := by
  simp [decisive, h, hd]

theorem decisive_none_of_fault {p : PluginResult} {f : Fault}
    (h : invoke p = Except.error f) : decisive p = Option.none := by
  simp [decisive, h]

theorem dispatchTrace_terminal_agrees {chain : List PluginResult} {o : Output}
    (h : (dispatchTrace chain).1 = ChainResult.terminal o) :
    agrees o.decision o.output = true := by
  induction chain with
  | nil => cases h
  | cons p rest ih =>
    cases hd : decisive p with
    | none =>
      rw [dispatchTrace_cons_not_decisive rest hd] at h
      exact ih h
    | some o' =>
      rw [dispatchTrace_cons_decisive rest hd] at h
      cases h
      exact invoke_ok_agrees (decisive_some hd).1

theorem dispatchTrace_terminal_not_nodecision {chain : List PluginResult} {o : Output}
    (h : (dispatchTrace chain).1 = ChainResult.terminal o) :
    o.decision ≠ RoutingDecision.NO_DECISION := by
  induction chain with
  | nil => cases h
  | cons p rest ih =>
    cases hd : decisive p with
    | none =>
      rw [dispatchTrace_cons_not_decisive rest hd] at h
      exact ih h
    | some o' =>
      rw [dispatchTrace_cons_decisive rest hd] at h
      cases h
      exact (decisive_some hd).2

theorem resolveShard_error_eq {pick shards : Nat} {s : Int} {f : Fault}
    (h : resolveShard pick shards s = Except.error f) : f = Fault.routingFault := by
  unfold resolveShard at h
  split at h
  · cases h
  · split at h
    · cases h
    · split at h
      · cases h
      · cases h
        rfl

theorem mergeAll_error_eq {shards : Nat} {arrivals : List (Nat × ShardResult)} {f : Fault}
    (h : mergeAll shards arrivals = Except.error f) : f = Fault.mergeFault := by
  unfold mergeAll at h
  split at h
  · cases h; rfl
  · cases h; rfl
  · split at h
    · cases h
    · cases h; rfl

theorem synthesize_error_eq {ic : Intercept} {f : Fault}
    (h : synthesize ic = Except.error f) : f = Fault.shapeFault := by
  unfold synthesize at h
  split at h
  · cases h
  · cases h; rfl

theorem collectShards_eq_map (arrivals : List (Nat × ShardResult))
    (g : Nat → ShardResult) (l : List Nat)
    (h : ∀ i ∈ l, lookupShard arrivals i = Option.some (g i)) :
    collectShards arrivals l = Option.some (l.map g) := by
  induction l with
  | nil => rfl
  | cons i is ih =>
    rw [List.map_cons]
    unfold collectShards
    rw [h i (List.mem_cons_self i is), ih (fun j hj => h j (List.mem_cons_of_mem i hj))]

theorem mergeAll_complete_uniform (shards : Nat) (backend : Nat → ShardResult)
    (arrivals : List (Nat × ShardResult)) (hpos : 0 < shards)
    (hcomp : ∀ i, i < shards → lookupShard arrivals i = Option.some (backend i))
    (huni : ∀ i, i < shards → (backend i).1 = (backend 0).1) :
    mergeAll shards arrivals =
      Except.ok ((backend 0).1, ((List.range shards).map (fun i => (backend i).2)).flatten) := by
  have hcol : collectShards arrivals (List.range shards) =
      Option.some ((List.range shards).map backend) :=
    collectShards_eq_map arrivals backend _ (fun i hi => hcomp i (List.mem_range.mp hi))
  obtain ⟨k, rfl⟩ := Nat.exists_eq_succ_of_ne_zero (Nat.pos_iff_ne_zero.mp hpos)
  have hcond : ∀ p ∈ List.map backend (List.map Nat.succ (List.range k)),
      p.1 = (backend 0).1 := by
    intro p hp
    rw [List.map_map] at hp
    obtain ⟨m, hm, rfl⟩ := List.mem_map.mp hp
    exact huni (Nat.succ m) (Nat.succ_lt_succ (List.mem_range.mp hm))
  simp only [Nat.succ_eq_add_one, List.range_succ_eq_map, List.map_cons] at hcol
  simp only [Nat.succ_eq_add_one, mergeAll, List.range_succ_eq_map, List.map_cons, hcol]
  rw [if_pos hcond]
  simp only [List.map_map, List.map_cons, List.flatten_cons]
  rfl

theorem mergeAll_mismatch (shards : Nat) (backend : Nat → ShardResult)
    (arrivals : List (Nat × ShardResult)) (i j : Nat)
    (hcomp : ∀ m, m < shards → lookupShard arrivals m = Option.some (backend m))
    (hi : i < shards) (hj : j < shards) (hne : (backend i).1 ≠ (backend j).1) :
    mergeAll shards arrivals = Except.error Fault.mergeFault := by
  have hcol : collectShards arrivals (List.range shards) =
      Option.some ((List.range shards).map backend) :=
    collectShards_eq_map arrivals backend _ (fun m hm => hcomp m (List.mem_range.mp hm))
  have hpos : 0 < shards := Nat.lt_of_le_of_lt (Nat.zero_le i) hi
  obtain ⟨k, rfl⟩ := Nat.exists_eq_succ_of_ne_zero (Nat.pos_iff_ne_zero.mp hpos)
  have hbad : ∃ m, m < k + 1 ∧ m ≠ 0 ∧ (backend m).1 ≠ (backend 0).1 := by
    by_cases h0 : (backend i).1 = (backend 0).1
    · refine ⟨j, hj, ?_, ?_⟩
      · intro hj0
        exact hne (by rw [hj0, h0])
      · intro hj0
        exact hne (by rw [hj0, h0])
    · refine ⟨i, hi, ?_, h0⟩
      intro hi0
      exact h0 (by rw [hi0])
  have hcond : ¬ ∀ p ∈ List.map backend (List.map Nat.succ (List.range k)),
      p.1 = (backend 0).1 := by
    intro hall
    obtain ⟨m, hm, hm0, hmne⟩ := hbad
    obtain ⟨m', rfl⟩ := Nat.exists_eq_succ_of_ne_zero hm0
    refine hmne (hall (backend (Nat.succ m')) ?_)
    rw [List.map_map]
    exact List.mem_map.mpr ⟨m', List.mem_range.mpr (Nat.lt_of_succ_lt_succ hm), rfl⟩
  simp only [Nat.succ_eq_add_one, List.range_succ_eq_map, List.map_cons] at hcol
  simp only [Nat.succ_eq_add_one, mergeAll, List.range_succ_eq_map, List.map_cons, hcol]
  rw [if_neg hcond]

theorem decNat32_encNat32 (n : Nat) (hn : n < 4294967296) (rest : List Nat) :
    decNat32 (encNat32 n ++ rest) = Option.some (n, rest) := by
  simp only [encNat32, List.cons_append, List.nil_append, decNat32]
  have hv : n % 256 + 256 * (n / 256 % 256) + 65536 * (n / 65536 % 256) +
      16777216 * (n / 16777216 % 256) = n := by omega
  rw [hv]

theorem decodeParam_encodeParam (p : Parameter) (hp : p.wellFormed) (rest : List Nat) :
    decodeParam (encodeParam p ++ rest) = Option.some (p, rest) := by
  obtain ⟨len, data, fmt⟩ := p
  simp only [Parameter.wellFormed] at hp
  obtain ⟨h0, h1, h2, h3, h4⟩ := hp
  subst h2
  have hlen32 : data.length < 4294967296 := by omega
  have hfmt32 : fmt.toNat < 4294967296 := by omega
  simp only [encodeParam, Int.toNat_natCast, List.append_assoc]
  simp only [decodeParam, decNat32_encNat32 _ hlen32]
  rw [if_pos ?hle]
  case hle =>
    rw [List.length_append]
    exact Nat.le_add_right _ _
  rw [List.drop_left, List.take_left]
  simp only [decNat32_encNat32 _ hfmt32]
  simp [Int.toNat_of_nonneg h3]

theorem decodeParams_encode (ps : List Parameter) (h : ∀ p ∈ ps, p.wellFormed)
    (rest : List Nat) :
    decodeParams ps.length ((ps.map encodeParam).flatten ++ rest) =
      Option.some (ps, rest) := by
  induction ps with
  | nil => rfl
  | cons p ps ih =>
    simp only [List.map_cons, List.flatten_cons, List.length_cons, List.append_assoc]
    simp only [decodeParams, decodeParam_encodeParam p (h p (List.mem_cons_self p ps)),
      ih (fun q hq => h q (List.mem_cons_of_mem p hq))]

theorem decodeQuery_encodeQuery (q : Query) (hq : q.wellFormed) (rest : List Nat) :
    decodeQuery (encodeQuery q ++ rest) = Option.some (q, rest) := by
  obtain ⟨len, text, ps⟩ := q
  simp only [Query.wellFormed] at hq
  obtain ⟨h0, h1, h2, h3, h4⟩ := hq
  subst h2
  have hlen32 : text.length < 4294967296 := by omega
  have hnp32 : ps.length < 4294967296 := by omega
  simp only [encodeQuery, Int.toNat_natCast, List.append_assoc]
  simp only [decodeQuery, decNat32_encNat32 _ hlen32]
  rw [if_pos ?hle]
  case hle =>
    rw [List.length_append]
    exact Nat.le_add_right _ _
  rw [List.drop_left, List.take_left]
  simp only [decNat32_encNat32 _ hnp32, decodeParams_encode ps h4 rest]

theorem execOutput_ne_pluginFault (pick shards : Nat) (backend : Nat → ShardResult)
    (arrivals : List (Nat × ShardResult)) (o : Output)
    (hag : agrees o.decision o.output = true)
    (hnd : o.decision ≠ RoutingDecision.NO_DECISION) :
    (execOutput pick shards backend arrivals o).2 ≠ Except.error Fault.pluginFault := by
  obtain ⟨d, pay⟩ := o
  cases d with
  | FORWARD =>
    cases pay with
    | route r =>
      simp only [execOutput]
      cases hr : resolveShard pick shards r.shard with
      | error f =>
        have hf := resolveShard_error_eq hr
        subst hf
        simp
      | ok plan =>
        cases plan with
        | single i => simp
        | fanAll =>
          cases hm : mergeAll shards arrivals with
          | error f =>
            have hf := mergeAll_error_eq hm
            subst hf
            simp
          | ok res => simp
    | error e => simp [agrees] at hag
    | intercept ic => simp [agrees] at hag
    | rewrite l t => simp [agrees] at hag
    | nothing => simp [agrees] at hag
  | ERROR =>
    cases pay with
    | error e => simp [execOutput]
    | route r => simp [agrees] at hag
    | intercept ic => simp [agrees] at hag
    | rewrite l t => simp [agrees] at hag
    | nothing => simp [agrees] at hag
  | INTERCEPT =>
    cases pay with
    | intercept ic =>
      simp only [execOutput]
      cases hs : synthesize ic with
      | error f =>
        have hf := synthesize_error_eq hs
        subst hf
        simp
      | ok res => simp
    | route r => simp [agrees] at hag
    | error e => simp [agrees] at hag
    | rewrite l t => simp [agrees] at hag
    | nothing => simp [agrees] at hag
  | REWRITE =>
    cases pay with
    | rewrite l t => simp [execOutput]
    | route r => simp [agrees] at hag
    | error e => simp [agrees] at hag
    | intercept ic => simp [agrees] at hag
    | nothing => simp [agrees] at hag
  | NO_DECISION => exact absurd rfl hnd

/-- C1: for every chain and input, the dispatcher invokes plugins in
the configured order, each at most once: if every plugin of the chain
is non-decisive (returns NO_DECISION, including the degrade treatment
of faults), the terminal state is Exhausted with every plugin invoked
exactly once; and whenever the plugins before `p` all return
NO_DECISION and `p` decides, the terminal Output is exactly `p`'s
Output and only the plugins up to and including `p` (a prefix of the
configured order, each once) are ever invoked — plugins after `p` are
never invoked. -/
theorem dispatcher_chain_order :
    (∀ chain : List PluginResult, (∀ p ∈ chain, decisive p = Option.none) →
      dispatchTrace chain = (ChainResult.exhausted, chain.length)) ∧
    (∀ (pre post : List PluginResult) (p : PluginResult) (o : Output),
      (∀ q ∈ pre, decisive q = Option.none) → decisive p = Option.some o →
      dispatchTrace (pre ++ p :: post) = (ChainResult.terminal o, pre.length + 1)) :=
  ⟨dispatchTrace_all_not_decisive, dispatchTrace_first_decisive⟩

/-- Witness for C1, the spec's example scenario: PluginA returns
NO_DECISION, PluginB returns FORWARD with affinity READ and shard 1;
the terminal Output is exactly PluginB's and both plugins are invoked
exactly once (invoked count 2). -/
theorem dispatcher_chain_order_witness :
    dispatchTrace
        [PluginResult.ok noDecisionOutput,
         PluginResult.ok ⟨RoutingDecision.FORWARD, RoutingOutput.route ⟨Affinity.READ, 1⟩⟩] =
      (ChainResult.terminal ⟨RoutingDecision.FORWARD, RoutingOutput.route ⟨Affinity.READ, 1⟩⟩, 2) :=
  dispatcher_chain_order.2 [PluginResult.ok noDecisionOutput] []
    (PluginResult.ok ⟨RoutingDecision.FORWARD, RoutingOutput.route ⟨Affinity.READ, 1⟩⟩)
    ⟨RoutingDecision.FORWARD, RoutingOutput.route ⟨Affinity.READ, 1⟩⟩
    (by decide) (by decide)

/-- C2: for every Output crossing the boundary, the invocation
validator accepts it exactly when the decision tag and the populated
payload member agree (FORWARD carries a Route, ERROR an Error,
INTERCEPT an Intercept, REWRITE new query text, NO_DECISION no
payload), and any mismatched pairing is rejected as a PluginFault. -/
theorem output_payload_agreement :
    ∀ o : Output,
      (invoke (PluginResult.ok o) = Except.ok o ↔
        ((o.decision = RoutingDecision.FORWARD ∧ ∃ r, o.output = RoutingOutput.route r) ∨
         (o.decision = RoutingDecision.ERROR ∧ ∃ e, o.output = RoutingOutput.error e) ∨
         (o.decision = RoutingDecision.INTERCEPT ∧ ∃ ic, o.output = RoutingOutput.intercept ic) ∨
         (o.decision = RoutingDecision.REWRITE ∧ ∃ l t, o.output = RoutingOutput.rewrite l t) ∨
         (o.decision = RoutingDecision.NO_DECISION ∧ o.output = RoutingOutput.nothing))) ∧
      (invoke (PluginResult.ok o) ≠ Except.ok o →
        invoke (PluginResult.ok o) = Except.error Fault.pluginFault) := by
  intro o
  obtain ⟨d, pay⟩ := o
  cases d <;> cases pay <;> simp [invoke, agrees]

/-- Witness for C2: the mismatched pairing FORWARD with no populated
payload member is rejected as a PluginFault. -/
theorem output_payload_agreement_witness :
    invoke (PluginResult.ok ⟨RoutingDecision.FORWARD, RoutingOutput.nothing⟩) =
      Except.error Fault.pluginFault :=
  (output_payload_agreement ⟨RoutingDecision.FORWARD, RoutingOutput.nothing⟩).2 (by decide)

/-- C3: when a plugin's FORWARD Output with affinity UNKNOWN becomes
the chain's terminal answer, the dispatcher propagates the route with
affinity UNKNOWN unchanged — it never substitutes another affinity. -/
theorem affinity_unknown_propagated :
    ∀ (pre post : List PluginResult) (p : PluginResult) (s : Int),
      (∀ q ∈ pre, decisive q = Option.none) →
      invoke p =
        Except.ok ⟨RoutingDecision.FORWARD, RoutingOutput.route ⟨Affinity.UNKNOWN, s⟩⟩ →
      (dispatchTrace (pre ++ p :: post)).1 =
        ChainResult.terminal
          ⟨RoutingDecision.FORWARD, RoutingOutput.route ⟨Affinity.UNKNOWN, s⟩⟩ := by
  intro pre post p s hpre hp
  have hdec :
      decisive p =
        Option.some ⟨RoutingDecision.FORWARD, RoutingOutput.route ⟨Affinity.UNKNOWN, s⟩⟩ :=
    decisive_of_invoke_ok hp (by simp)
  rw [dispatchTrace_first_decisive pre post p _ hpre hdec]

/-- Witness for C3: a one-plugin chain returning FORWARD with
affinity UNKNOWN and shard 0 terminates with that exact Output. -/
theorem affinity_unknown_propagated_witness :
    (dispatchTrace
        ([] ++ PluginResult.ok
          ⟨RoutingDecision.FORWARD, RoutingOutput.route ⟨Affinity.UNKNOWN, 0⟩⟩ :: [])).1 =
      ChainResult.terminal
        ⟨RoutingDecision.FORWARD, RoutingOutput.route ⟨Affinity.UNKNOWN, 0⟩⟩ :=
  affinity_unknown_propagated [] []
    (PluginResult.ok ⟨RoutingDecision.FORWARD, RoutingOutput.route ⟨Affinity.UNKNOWN, 0⟩⟩)
    0 (by decide) (by decide)

/-- C8: a plugin invocation raising a PluginFault is, under the
default configuration, treated exactly as a NO_DECISION result — the
dispatcher continues with the rest of the chain unchanged — and
PluginFault is the only fault of the taxonomy that is absorbed: the
full pipeline never surfaces a PluginFault to the client, while each
of the other faults (RoutingFault, MergeFault, ShapeFault) does reach
the client on a concrete run. -/
theorem plugin_fault_absorbed :
    (∀ (pre post : List PluginResult) (p : PluginResult),
      invoke p = Except.error Fault.pluginFault →
      dispatchTrace (pre ++ p :: post) =
        dispatchTrace (pre ++ PluginResult.ok noDecisionOutput :: post)) ∧
    (∀ (pick shards : Nat) (backend : Nat → ShardResult)
        (arrivals : List (Nat × ShardResult)) (chain : List PluginResult),
      (execChain pick shards backend arrivals chain).2 ≠ Except.error Fault.pluginFault) ∧
    (execChain 0 2 (fun _ => (⟨[]⟩, [])) []
        [PluginResult.ok ⟨RoutingDecision.FORWARD, RoutingOutput.route ⟨Affinity.READ, 5⟩⟩]).2 =
      Except.error Fault.routingFault ∧
    (execChain 0 2
        (fun i => if i = 0 then (⟨[⟨1, [99], 23⟩]⟩, []) else (⟨[⟨1, [100], 23⟩]⟩, []))
        [(0, ⟨[⟨1, [99], 23⟩]⟩, []), (1, ⟨[⟨1, [100], 23⟩]⟩, [])]
        [PluginResult.ok ⟨RoutingDecision.FORWARD, RoutingOutput.route ⟨Affinity.READ, ALL⟩⟩]).2 =
      Except.error Fault.mergeFault ∧
    (execChain 0 1 (fun _ => (⟨[]⟩, [])) []
        [PluginResult.ok
          ⟨RoutingDecision.INTERCEPT,
           RoutingOutput.intercept ⟨⟨[⟨1, [99], 23⟩]⟩, [⟨[]⟩]⟩⟩]).2 =
      Except.error Fault.shapeFault := by
  refine ⟨?_, ?_, by decide, by decide, by decide⟩
  · intro pre post p hp
    have h1 : decisive p = Option.none := decisive_none_of_fault hp
    have h2 : decisive (PluginResult.ok noDecisionOutput) = Option.none := by decide
    induction pre with
    | nil =>
      rw [List.nil_append, List.nil_append, dispatchTrace_cons_not_decisive post h1,
        dispatchTrace_cons_not_decisive post h2]
    | cons q rest ih =>
      cases hq : decisive q with
      | some o =>
        rw [List.cons_append, List.cons_append, dispatchTrace_cons_decisive _ hq,
          dispatchTrace_cons_decisive _ hq]
      | none =>
        rw [List.cons_append, List.cons_append, dispatchTrace_cons_not_decisive _ hq,
          dispatchTrace_cons_not_decisive _ hq, ih]
  · intro pick shards backend arrivals chain
    unfold execChain
    cases ht : (dispatchTrace chain).1 with
    | exhausted => simp
    | terminal o =>
      exact execOutput_ne_pluginFault pick shards backend arrivals o
        (dispatchTrace_terminal_agrees ht) (dispatchTrace_terminal_not_nodecision ht)

/-- Witness for C8: a crashing plugin followed by a deciding plugin
behaves exactly as a NO_DECISION plugin followed by the same deciding
plugin, and a concrete pipeline run does not surface PluginFault. -/
theorem plugin_fault_absorbed_witness :
    dispatchTrace
        ([] ++ PluginResult.crash ::
          [PluginResult.ok ⟨RoutingDecision.FORWARD, RoutingOutput.route ⟨Affinity.WRITE, 0⟩⟩]) =
      dispatchTrace
        ([] ++ PluginResult.ok noDecisionOutput ::
          [PluginResult.ok ⟨RoutingDecision.FORWARD, RoutingOutput.route ⟨Affinity.WRITE, 0⟩⟩]) ∧
    (execChain 0 1 (fun _ => (⟨[]⟩, [])) [] [PluginResult.crash]).2 ≠
      Except.error Fault.pluginFault :=
  ⟨plugin_fault_absorbed.1 [] _ PluginResult.crash (by decide),
   plugin_fault_absorbed.2.1 0 1 (fun _ => (⟨[]⟩, [])) [] [PluginResult.crash]⟩

/-- C5: for a non-sentinel shard id, shard resolution succeeds exactly
when `0 ≤ id < shards`; an out-of-range id yields a RoutingFault — the
id is never clamped to a valid shard — and the pipeline dispatches to
no backend at all, surfacing the RoutingFault to the client. -/
theorem shard_range_check :
    ∀ (pick shards : Nat) (s : Int), s ≠ ANY → s ≠ ALL →
      ((∃ pl, resolveShard pick shards s = Except.ok pl) ↔ (0 ≤ s ∧ s.toNat < shards)) ∧
      (¬ (0 ≤ s ∧ s.toNat < shards) →
        resolveShard pick shards s = Except.error Fault.routingFault ∧
        ∀ (backend : Nat → ShardResult) (arrivals : List (Nat × ShardResult))
          (aff : Affinity) (post : List PluginResult),
          execChain pick shards backend arrivals
              (PluginResult.ok ⟨RoutingDecision.FORWARD, RoutingOutput.route ⟨aff, s⟩⟩ :: post) =
            ([], Except.error Fault.routingFault)) := by
  intro pick shards s hany hall
  have hres : resolveShard pick shards s =
      if 0 ≤ s ∧ s.toNat < shards then Except.ok (ShardPlan.single s.toNat)
      else Except.error Fault.routingFault := by
    unfold resolveShard
    rw [if_neg hall, if_neg hany]
  constructor
  · constructor
    · rintro ⟨pl, hpl⟩
      by_cases hc : 0 ≤ s ∧ s.toNat < shards
      · exact hc
      · rw [hres, if_neg hc] at hpl
        cases hpl
    · intro hc
      exact ⟨ShardPlan.single s.toNat, by rw [hres, if_pos hc]⟩
  · intro hc
    have herr : resolveShard pick shards s = Except.error Fault.routingFault := by
      rw [hres, if_neg hc]
    refine ⟨herr, ?_⟩
    intro backend arrivals aff post
    have hdec :
        decisive (PluginResult.ok
            ⟨RoutingDecision.FORWARD, RoutingOutput.route ⟨aff, s⟩⟩) =
          Option.some ⟨RoutingDecision.FORWARD, RoutingOutput.route ⟨aff, s⟩⟩ :=
      decisive_of_invoke_ok (by simp [invoke, agrees]) (by simp)
    simp only [execChain, dispatchTrace_cons_decisive post hdec, execOutput, herr]

/-- Witness for C5: with 2 configured shards, concrete shard id 5 is
rejected as a RoutingFault and nothing is dispatched to any backend. -/
theorem shard_range_check_witness :
    resolveShard 0 2 5 = Except.error Fault.routingFault ∧
    execChain 0 2 (fun _ => (⟨[]⟩, [])) []
        [PluginResult.ok
          ⟨RoutingDecision.FORWARD, RoutingOutput.route ⟨Affinity.READ, 5⟩⟩] =
      ([], Except.error Fault.routingFault) :=
  ⟨((shard_range_check 0 2 5 (by decide) (by decide)).2 (by decide)).1,
   ((shard_range_check 0 2 5 (by decide) (by decide)).2 (by decide)).2
     (fun _ => (⟨[]⟩, [])) [] Affinity.READ []⟩

/-- C4: for a FORWARD route with shard = ALL over `shards` shards
whose per-shard row descriptions are all identical, the merged
client-visible result is the concatenation of the per-shard row sets
in ascending shard index — for every completion order (`arrivals` is
any list that holds every shard's result). -/
theorem all_shard_merge_order :
    ∀ (pick shards : Nat) (backend : Nat → ShardResult)
      (arrivals : List (Nat × ShardResult)) (aff : Affinity),
      0 < shards →
      (∀ i, i < shards → lookupShard arrivals i = Option.some (backend i)) →
      (∀ i, i < shards → (backend i).1 = (backend 0).1) →
      mergeAll shards arrivals =
        Except.ok ((backend 0).1,
          ((List.range shards).map (fun i => (backend i).2)).flatten) ∧
      execChain pick shards backend arrivals
          [PluginResult.ok ⟨RoutingDecision.FORWARD, RoutingOutput.route ⟨aff, ALL⟩⟩] =
        (List.range shards,
          Except.ok (ClientView.resultSet (backend 0).1
            (((List.range shards).map (fun i => (backend i).2)).flatten))) := by
  intro pick shards backend arrivals aff hpos hcomp huni
  have hmerge := mergeAll_complete_uniform shards backend arrivals hpos hcomp huni
  refine ⟨hmerge, ?_⟩
  have hdec :
      decisive (PluginResult.ok
          ⟨RoutingDecision.FORWARD, RoutingOutput.route ⟨aff, ALL⟩⟩) =
        Option.some ⟨RoutingDecision.FORWARD, RoutingOutput.route ⟨aff, ALL⟩⟩ :=
    decisive_of_invoke_ok (by simp [invoke, agrees]) (by simp)
  have hres : resolveShard pick shards ALL = Except.ok ShardPlan.fanAll := by
    unfold resolveShard
    rw [if_pos rfl]
  simp only [execChain, dispatchTrace_cons_decisive [] hdec, execOutput, hres, hmerge]

/-- Witness for C4: two shards with the same row description, whose
results arrive in reversed completion order (shard 1 first); the
merged result is still shard 0's rows followed by shard 1's. -/
theorem all_shard_merge_order_witness :
    mergeAll 2 [(1, ⟨[⟨1, [99], 23⟩]⟩, [⟨[⟨1, [50]⟩]⟩]), (0, ⟨[⟨1, [99], 23⟩]⟩, [⟨[⟨1, [49]⟩]⟩])] =
      Except.ok (⟨[⟨1, [99], 23⟩]⟩, [⟨[⟨1, [49]⟩]⟩, ⟨[⟨1, [50]⟩]⟩]) ∧
    execChain 0 2
        (fun i => if i = 0 then (⟨[⟨1, [99], 23⟩]⟩, [⟨[⟨1, [49]⟩]⟩]) else (⟨[⟨1, [99], 23⟩]⟩, [⟨[⟨1, [50]⟩]⟩]))
        [(1, ⟨[⟨1, [99], 23⟩]⟩, [⟨[⟨1, [50]⟩]⟩]), (0, ⟨[⟨1, [99], 23⟩]⟩, [⟨[⟨1, [49]⟩]⟩])]
        [PluginResult.ok ⟨RoutingDecision.FORWARD, RoutingOutput.route ⟨Affinity.READ, ALL⟩⟩] =
      (List.range 2,
        Except.ok (ClientView.resultSet ⟨[⟨1, [99], 23⟩]⟩ [⟨[⟨1, [49]⟩]⟩, ⟨[⟨1, [50]⟩]⟩])) :=
  all_shard_merge_order 0 2
    (fun i => if i = 0 then (⟨[⟨1, [99], 23⟩]⟩, [⟨[⟨1, [49]⟩]⟩]) else (⟨[⟨1, [99], 23⟩]⟩, [⟨[⟨1, [50]⟩]⟩]))
    [(1, ⟨[⟨1, [99], 23⟩]⟩, [⟨[⟨1, [50]⟩]⟩]), (0, ⟨[⟨1, [99], 23⟩]⟩, [⟨[⟨1, [49]⟩]⟩])]
    Affinity.READ (by decide) (by decide) (by decide)

/-- C6: for a FORWARD route with shard = ALL where two shards' row
descriptions differ, the merge step yields a MergeFault, the pipeline
surfaces it to the client as an error, and no rows whatsoever — in
particular no partial rows — are exposed to the client. -/
theorem all_shard_merge_fault :
    ∀ (pick shards : Nat) (backend : Nat → ShardResult)
      (arrivals : List (Nat × ShardResult)) (aff : Affinity) (i j : Nat),
      (∀ m, m < shards → lookupShard arrivals m = Option.some (backend m)) →
      i < shards → j < shards → (backend i).1 ≠ (backend j).1 →
      mergeAll shards arrivals = Except.error Fault.mergeFault ∧
      execChain pick shards backend arrivals
          [PluginResult.ok ⟨RoutingDecision.FORWARD, RoutingOutput.route ⟨aff, ALL⟩⟩] =
        (List.range shards, Except.error Fault.mergeFault) ∧
      ∀ (rd : RowDescription) (rows : List Row),
        (execChain pick shards backend arrivals
            [PluginResult.ok ⟨RoutingDecision.FORWARD, RoutingOutput.route ⟨aff, ALL⟩⟩]).2 ≠
          Except.ok (ClientView.resultSet rd rows) := by
  intro pick shards backend arrivals aff i j hcomp hi hj hne
  have hmerge := mergeAll_mismatch shards backend arrivals i j hcomp hi hj hne
  have hdec :
      decisive (PluginResult.ok
          ⟨RoutingDecision.FORWARD, RoutingOutput.route ⟨aff, ALL⟩⟩) =
        Option.some ⟨RoutingDecision.FORWARD, RoutingOutput.route ⟨aff, ALL⟩⟩ :=
    decisive_of_invoke_ok (by simp [invoke, agrees]) (by simp)
  have hres : resolveShard pick shards ALL = Except.ok ShardPlan.fanAll := by
    unfold resolveShard
    rw [if_pos rfl]
  have hexec : execChain pick shards backend arrivals
      [PluginResult.ok ⟨RoutingDecision.FORWARD, RoutingOutput.route ⟨aff, ALL⟩⟩] =
      (List.range shards, Except.error Fault.mergeFault) := by
    simp only [execChain, dispatchTrace_cons_decisive [] hdec, execOutput, hres, hmerge]
  refine ⟨hmerge, hexec, ?_⟩
  intro rd rows
  rw [hexec]
  simp

/-- Witness for C6: two shards whose row descriptions differ (column
named "c" versus column named "d"); the merge is a MergeFault and the
client sees the error, not a result set. -/
theorem all_shard_merge_fault_witness :
    mergeAll 2 [(0, ⟨[⟨1, [99], 23⟩]⟩, [⟨[⟨1, [49]⟩]⟩]), (1, ⟨[⟨1, [100], 23⟩]⟩, [⟨[⟨1, [50]⟩]⟩])] =
      Except.error Fault.mergeFault ∧
    execChain 0 2
        (fun i => if i = 0 then (⟨[⟨1, [99], 23⟩]⟩, [⟨[⟨1, [49]⟩]⟩]) else (⟨[⟨1, [100], 23⟩]⟩, [⟨[⟨1, [50]⟩]⟩]))
        [(0, ⟨[⟨1, [99], 23⟩]⟩, [⟨[⟨1, [49]⟩]⟩]), (1, ⟨[⟨1, [100], 23⟩]⟩, [⟨[⟨1, [50]⟩]⟩])]
        [PluginResult.ok ⟨RoutingDecision.FORWARD, RoutingOutput.route ⟨Affinity.READ, ALL⟩⟩] =
      (List.range 2, Except.error Fault.mergeFault) :=
  ⟨(all_shard_merge_fault 0 2
      (fun i => if i = 0 then (⟨[⟨1, [99], 23⟩]⟩, [⟨[⟨1, [49]⟩]⟩]) else (⟨[⟨1, [100], 23⟩]⟩, [⟨[⟨1, [50]⟩]⟩]))
      [(0, ⟨[⟨1, [99], 23⟩]⟩, [⟨[⟨1, [49]⟩]⟩]), (1, ⟨[⟨1, [100], 23⟩]⟩, [⟨[⟨1, [50]⟩]⟩])]
      Affinity.READ 1 0 (by decide) (by decide) (by decide) (by decide)).1,
   (all_shard_merge_fault 0 2
      (fun i => if i = 0 then (⟨[⟨1, [99], 23⟩]⟩, [⟨[⟨1, [49]⟩]⟩]) else (⟨[⟨1, [100], 23⟩]⟩, [⟨[⟨1, [50]⟩]⟩]))
      [(0, ⟨[⟨1, [99], 23⟩]⟩, [⟨[⟨1, [49]⟩]⟩]), (1, ⟨[⟨1, [100], 23⟩]⟩, [⟨[⟨1, [50]⟩]⟩])]
      Affinity.READ 1 0 (by decide) (by decide) (by decide) (by decide)).2.1⟩

/-- C7: Intercept result synthesis fails with a ShapeFault exactly
when some row's column count differs from the row description's, or
some column value's declared length is inconsistent with its byte
sequence (negative length being the SQL NULL sentinel); otherwise it
succeeds with the synthesized result set.  Through the pipeline, an
INTERCEPT terminal output never dispatches to any backend; on failure
the ShapeFault (and no rows) reaches the client, and on success the
synthesized rows are sent to the client. -/
theorem intercept_synthesis :
    ∀ ic : Intercept,
      (synthesize ic = Except.error Fault.shapeFault ↔
        (∃ r ∈ ic.rows, r.num_columns ≠ ic.row_description.num_columns) ∨
        (∃ r ∈ ic.rows, ∃ c ∈ r.columns, ¬ c.consistent)) ∧
      (synthesize ic ≠ Except.error Fault.shapeFault →
        synthesize ic = Except.ok (ic.row_description, ic.rows)) ∧
      (∀ (pick shards : Nat) (backend : Nat → ShardResult)
          (arrivals : List (Nat × ShardResult)),
        (execChain pick shards backend arrivals
            [PluginResult.ok ⟨RoutingDecision.INTERCEPT, RoutingOutput.intercept ic⟩]).1 = [] ∧
        (synthesize ic = Except.error Fault.shapeFault →
          (execChain pick shards backend arrivals
              [PluginResult.ok ⟨RoutingDecision.INTERCEPT, RoutingOutput.intercept ic⟩]).2 =
            Except.error Fault.shapeFault) ∧
        (synthesize ic = Except.ok (ic.row_description, ic.rows) →
          (execChain pick shards backend arrivals
              [PluginResult.ok ⟨RoutingDecision.INTERCEPT, RoutingOutput.intercept ic⟩]).2 =
            Except.ok (ClientView.resultSet ic.row_description ic.rows))) := by
  intro ic
  have hdec :
      decisive (PluginResult.ok
          ⟨RoutingDecision.INTERCEPT, RoutingOutput.intercept ic⟩) =
        Option.some ⟨RoutingDecision.INTERCEPT, RoutingOutput.intercept ic⟩ :=
    decisive_of_invoke_ok (by simp [invoke, agrees]) (by simp)
  refine ⟨?_, ?_, ?_⟩
  · unfold synthesize
    split
    case isTrue hv =>
      constructor
      · intro h
        cases h
      · intro h
        exfalso
        rcases h with ⟨r, hr, hneq⟩ | ⟨r, hr, c, hc, hnc⟩
        · exact hneq (hv.1 r hr)
        · exact hnc (hv.2 r hr c hc)
    case isFalse hv =>
      constructor
      · intro _
        rcases not_and_or.mp hv with hna | hnb
        · left
          push_neg at hna
          exact hna
        · right
          push_neg at hnb
          exact hnb
      · intro _
        rfl
  · unfold synthesize
    split
    · intro _
      rfl
    · intro hne
      exact absurd rfl hne
  · intro pick shards backend arrivals
    refine ⟨?_, ?_, ?_⟩
    · cases hs : synthesize ic with
      | error f =>
        simp only [execChain, dispatchTrace_cons_decisive [] hdec, execOutput, hs]
      | ok res =>
        simp only [execChain, dispatchTrace_cons_decisive [] hdec, execOutput, hs]
    · intro hs
      simp only [execChain, dispatchTrace_cons_decisive [] hdec, execOutput, hs]
    · intro hs
      simp only [execChain, dispatchTrace_cons_decisive [] hdec, execOutput, hs]

/-- Witness for C7: an Intercept whose row description has one column
but whose second row has two columns fails with a ShapeFault; through
the pipeline nothing is dispatched to a backend and the client sees
the ShapeFault. -/
theorem intercept_synthesis_witness :
    synthesize ⟨⟨[⟨1, [99], 23⟩]⟩, [⟨[⟨1, [49]⟩]⟩, ⟨[⟨1, [50]⟩, ⟨1, [51]⟩]⟩]⟩ =
      Except.error Fault.shapeFault ∧
    (execChain 0 1 (fun _ => (⟨[]⟩, [])) []
        [PluginResult.ok
          ⟨RoutingDecision.INTERCEPT,
           RoutingOutput.intercept
             ⟨⟨[⟨1, [99], 23⟩]⟩, [⟨[⟨1, [49]⟩]⟩, ⟨[⟨1, [50]⟩, ⟨1, [51]⟩]⟩]⟩⟩]).1 = [] ∧
    (execChain 0 1 (fun _ => (⟨[]⟩, [])) []
        [PluginResult.ok
          ⟨RoutingDecision.INTERCEPT,
           RoutingOutput.intercept
             ⟨⟨[⟨1, [99], 23⟩]⟩, [⟨[⟨1, [49]⟩]⟩, ⟨[⟨1, [50]⟩, ⟨1, [51]⟩]⟩]⟩⟩]).2 =
      Except.error Fault.shapeFault :=
  ⟨(intercept_synthesis ⟨⟨[⟨1, [99], 23⟩]⟩, [⟨[⟨1, [49]⟩]⟩, ⟨[⟨1, [50]⟩, ⟨1, [51]⟩]⟩]⟩).1.mpr
     (by decide),
   ((intercept_synthesis ⟨⟨[⟨1, [99], 23⟩]⟩, [⟨[⟨1, [49]⟩]⟩, ⟨[⟨1, [50]⟩, ⟨1, [51]⟩]⟩]⟩).2.2
     0 1 (fun _ => (⟨[]⟩, [])) []).1,
   ((intercept_synthesis ⟨⟨[⟨1, [99], 23⟩]⟩, [⟨[⟨1, [49]⟩]⟩, ⟨[⟨1, [50]⟩, ⟨1, [51]⟩]⟩]⟩).2.2
     0 1 (fun _ => (⟨[]⟩, [])) []).2.1
     ((intercept_synthesis ⟨⟨[⟨1, [99], 23⟩]⟩, [⟨[⟨1, [49]⟩]⟩, ⟨[⟨1, [50]⟩, ⟨1, [51]⟩]⟩]⟩).1.mpr
       (by decide))⟩

/-- C9: the serialized form of a Query carries every variable-length
field with an explicit length, so serializing and re-reading preserves
the exact declared byte length and byte content of the query text and
of every parameter — including binary parameters with embedded zero
bytes, which are never truncated — and every plugin of a chain
observes exactly the same immutable Input. -/
theorem query_bytes_round_trip :
    (∀ (q : Query) (rest : List Nat), q.wellFormed →
      decodeQuery (encodeQuery q ++ rest) = Option.some (q, rest)) ∧
    (∀ (inp : Input) (fs : List (Input → PluginResult)),
      ∀ x ∈ (dispatchObs inp fs).2, x = inp) := by
  constructor
  · intro q rest hq
    exact decodeQuery_encodeQuery q hq rest
  · intro inp fs
    induction fs with
    | nil =>
      intro x hx
      simp [dispatchObs] at hx
    | cons f rest ih =>
      intro x hx
      cases hd : decisive (f inp) with
      | some o =>
        simp only [dispatchObs, hd] at hx
        simpa using hx
      | none =>
        simp only [dispatchObs, hd] at hx
        rcases List.mem_cons.mp hx with h | h
        · exact h
        · exact ih x h

/-- Witness for C9: a query whose text and binary-format parameter
both contain an embedded zero byte round-trips unchanged. -/
theorem query_bytes_round_trip_witness :
    decodeQuery (encodeQuery ⟨3, [83, 0, 84], [⟨3, [1, 0, 2], 1⟩]⟩ ++ []) =
      Option.some ((⟨3, [83, 0, 84], [⟨3, [1, 0, 2], 1⟩]⟩ : Query), []) :=
  query_bytes_round_trip.1 ⟨3, [83, 0, 84], [⟨3, [1, 0, 2], 1⟩]⟩ [] (by decide)

/-- C10: `Config` has no shard-count field — `num_databases` counts
`DatabaseConfig` entries, several of which (a primary and its replica
here) may share one shard index — so the shard count is derived from
the distinct `DatabaseConfig.shard` values; for this Config the two
counts differ, and it is the derived count (not `num_databases`) that
governs the concrete-id range check. -/
theorem config_shard_count_distinct :
    ∃ c : Config,
      Config.num_databases c = 2 ∧
      Config.shardCount c = 1 ∧
      Config.num_databases c ≠ Config.shardCount c ∧
      resolveShard 0 (Config.shardCount c) 0 = Except.ok (ShardPlan.single 0) ∧
      resolveShard 0 (Config.shardCount c) 1 = Except.error Fault.routingFault ∧
      resolveShard 0 (Config.num_databases c) 1 = Except.ok (ShardPlan.single 1) :=
  ⟨⟨[⟨0, Role.PRIMARY, "10.0.0.1", 5432⟩, ⟨0, Role.REPLICA, "10.0.0.2", 5432⟩], "pgdog"⟩,
    by decide⟩

end Pgdog
